import Mathlib

/-!
Shallow embedding of `src/New_alarm_mutex.c`, a mutex-protected alarm list
with a main (command) thread and a single alarm (expiry) thread.

The alarm list (`alarm_t *alarm_list`) is modelled as a `List AlarmT`, head
first, exactly the nodes reachable from the list head by following `link`.
Machine `int` and `time_t` values are modelled as `Int` (no claim depends on
fixed-width overflow).  Since every list operation of the C program runs
under the single mutex, each handler is a pure function from the reachable
list (plus the value `time(NULL)` returned during the call, passed as the
parameter `now`) to the new reachable list.
-/

namespace AlarmMutex

/-- The `alarm_tag` structure (src lines 28-35) minus the `link` pointer,
which is represented by list structure.  `type` is a `char*` in the C code
(it aliases a caller buffer); its string value at a given moment is modelled
here.  `message` is a `char[64]` array; its string value is modelled, and the
byte-count question of `strcpy` into it is modelled separately below. -/
structure AlarmT where
  alarm_id : Int
  seconds  : Int
  type     : String
  time     : Int
  message  : String
deriving DecidableEq, Repr

/-- The record built by `Start_Alarm` before insertion (src lines 150-155):
`alarm->time = time(NULL) + seconds`, other fields copied from the call. -/
def mkAlarm (alarm_id : Int) (ty : String) (seconds now : Int) (message : String) : AlarmT :=
  { alarm_id := alarm_id, seconds := seconds, type := ty, time := now + seconds,
    message := message }

/-- The scan of src lines 166-174: walk the list until the first node with
`next->alarm_id >= alarm_id`; the new alarm gets that node as its `link`
(the break case), or `NULL` if the scan exhausts the list.  The returned
list is exactly what the new alarm will link to. -/
def findGESuffix (alarm_id : Int) : List AlarmT → List AlarmT
  | [] => []
  | next :: rest =>
      if next.alarm_id ≥ alarm_id then next :: rest
      else findGESuffix alarm_id rest

/-- `Start_Alarm` (src lines 138-185) on the reachable list.  After the scan,
line 175 executes `alarm_list = alarm` unconditionally (it never assigns
`*last`), so the new alarm always becomes the list head and the reachable
list is the new alarm followed by the scan suffix; nodes before the found
position become unreachable. -/
def Start_Alarm (l : List AlarmT) (alarm_id : Int) (ty : String) (seconds now : Int)
    (message : String) : List AlarmT :=
  mkAlarm alarm_id ty seconds now message :: findGESuffix alarm_id l

/-- `Change_Alarm` (src lines 186-226): find the first node with a matching
`alarm_id`; overwrite `type`, `seconds`, `time := time(NULL) + seconds` and
`message` in place and stop.  The node keeps its list position (no re-sort).
Returns the new list and whether a match was found (the C code prints
"Could not find alarm" when it is `false`).
Value notes from the C writes: `alarm->type[sizeof(alarm->type)-1] = 0`
writes a terminator at byte `sizeof(char*) - 1 = 7` (LP64), so the stored
type value is the first 7 characters; `alarm->message[63] = 0` keeps the
first 63 characters. -/
def Change_Alarm (l : List AlarmT) (alarm_id : Int) (ty : String) (seconds now : Int)
    (message : String) : List AlarmT × Bool :=
  match l with
  | [] => ([], false)
  | a :: rest =>
      if a.alarm_id = alarm_id then
        ({ a with type := ty.take 7
                  seconds := seconds
                  time := now + seconds
                  message := message.take 63 } :: rest, true)
      else
        ((a :: (Change_Alarm rest alarm_id ty seconds now message).1),
         (Change_Alarm rest alarm_id ty seconds now message).2)

/-- `Cancel_Alarm` (src lines 228-273): unlink and free the first node with a
matching `alarm_id`.  Returns the new list and whether a match was found
(the C code prints "Alarm does not exist" when it is `false`). -/
def Cancel_Alarm (l : List AlarmT) (alarm_id : Int) : List AlarmT × Bool :=
  match l with
  | [] => ([], false)
  | a :: rest =>
      if a.alarm_id = alarm_id then (rest, true)
      else ((a :: (Cancel_Alarm rest alarm_id).1), (Cancel_Alarm rest alarm_id).2)

/-- One iteration of the alarm thread loop (src lines 56-109) up to the
unlock, as a function of the reachable list and `now = time(NULL)`:
returns the list left behind, the computed `sleep_time`, and the alarm the
thread took (it prints and frees it after sleeping).  If the list is empty,
`sleep_time = 1` and nothing is taken; otherwise the head is removed
unconditionally (line 73, `alarm_list = alarm->link`) and `sleep_time` is
`0` when `alarm->time <= now`, else `alarm->time - now`. -/
def alarm_thread_iter (l : List AlarmT) (now : Int) : List AlarmT × Int × Option AlarmT :=
  match l with
  | [] => ([], 1, none)
  | a :: rest => (rest, if a.time ≤ now then 0 else a.time - now, some a)

/-- A foreground command, carrying the value of `time(NULL)` observed while
the handler ran (the C handlers each call `time(NULL)` themselves). -/
inductive Op where
  | create (alarm_id : Int) (ty : String) (seconds now : Int) (message : String)
  | modify (alarm_id : Int) (ty : String) (seconds now : Int) (message : String)
  | cancel (alarm_id : Int)
deriving Repr

/-- Apply one command handler to the reachable list. -/
def applyOp (l : List AlarmT) : Op → List AlarmT
  | .create alarm_id ty seconds now message => Start_Alarm l alarm_id ty seconds now message
  | .modify alarm_id ty seconds now message => (Change_Alarm l alarm_id ty seconds now message).1
  | .cancel alarm_id => (Cancel_Alarm l alarm_id).1

/-- Run a sequence of commands from the empty registry (`alarm_list = NULL`
at program start, src line 38). -/
def runOps (ops : List Op) : List AlarmT :=
  ops.foldl applyOp []

/-- No two live alarms share an id. -/
def noDupIds (l : List AlarmT) : Prop :=
  (l.map AlarmT.alarm_id).Nodup

instance (l : List AlarmT) : Decidable (noDupIds l) :=
  inferInstanceAs (Decidable ((l.map AlarmT.alarm_id).Nodup))

/-- Scheduling order of the spec: ascending `expiry` (`time`), ties broken
by ascending `id`. -/
def schedLe (a b : AlarmT) : Prop :=
  a.time < b.time ∨ (a.time = b.time ∧ a.alarm_id ≤ b.alarm_id)

instance (a b : AlarmT) : Decidable (schedLe a b) :=
  inferInstanceAs (Decidable (a.time < b.time ∨ (a.time = b.time ∧ a.alarm_id ≤ b.alarm_id)))

/-- The list is in scheduling order. -/
def schedOrdered (l : List AlarmT) : Prop :=
  l.Pairwise schedLe

instance (l : List AlarmT) : Decidable (schedOrdered l) :=
  inferInstanceAs (Decidable (l.Pairwise schedLe))

/-- Byte capacity of the `message` array in `alarm_tag` (src line 34:
`char message[64]`). -/
def messageCapacity : Nat := 64

/-- Number of bytes `strcpy` writes into its destination: every byte of the
source string plus the terminating null byte. -/
def strcpyBytesWritten (s : String) : Nat := s.length + 1

/-- A 100-character ASCII message; the command parser (src lines 339-340,
conversion `%128` into `char message[65]`) accepts inputs of this length. -/
def longMsg : String := String.mk (List.replicate 100 'a')

/-- Outcome of the allocation step of `Start_Alarm`. -/
inductive StartResult where
  | ok (l : List AlarmT)
  | nullDeref
deriving DecidableEq, Repr

/-- `Start_Alarm` including the allocation step (src lines 145-155).  When
`malloc` fails, the C code runs `free(alarm)` on the null pointer and
`perror`, but the `if` body has no return: control falls through to
`alarm->alarm_id = alarm_id`, a store through the null pointer, modelled as
the `nullDeref` outcome. -/
def Start_Alarm_withAlloc (allocOk : Bool) (l : List AlarmT) (alarm_id : Int) (ty : String)
    (seconds now : Int) (message : String) : StartResult :=
  if allocOk then .ok (Start_Alarm l alarm_id ty seconds now message)
  else .nullDeref

/-- A sample alarm (id 1, expiry 50) used as a concrete input. -/
def alarmA : AlarmT :=
  { alarm_id := 1, seconds := 50, type := "A", time := 50, message := "x" }

/-- A sample alarm (id 2, expiry 100) used as a concrete input. -/
def alarmB : AlarmT :=
  { alarm_id := 2, seconds := 100, type := "B", time := 100, message := "y" }

/-- C1: the claim fails on the code.  From the empty Registry, the sequence
Start_Alarm(2, dur 5) then Start_Alarm(2, dur 7) reaches a state whose live
(reachable) alarms both carry id 2: `Start_Alarm` performs no duplicate
check and links the new node in front of the node with the equal id. -/
theorem c1_duplicate_ids_reachable :
    ¬ noDupIds (runOps [Op.create 2 "A" 5 0 "x", Op.create 2 "B" 7 1 "y"]) := by
  decide

/-- C2: the claim fails on the code.  After Start_Alarm(2, dur 5) then
Start_Alarm(1, dur 10), both at time 0, the reachable list carries expiry
times [10, 5]: descending, not ascending.  The `Start_Alarm` scan compares
`alarm_id`, not `time`, and line 175 re-heads the list unconditionally. -/
theorem c2_sched_order_violated :
    (runOps [Op.create 2 "A" 5 0 "x", Op.create 1 "B" 10 0 "y"]).map AlarmT.time = [10, 5] ∧
    ¬ schedOrdered (runOps [Op.create 2 "A" 5 0 "x", Op.create 1 "B" 10 0 "y"]) := by
  decide

/-- C3 counterexample: with one alarm of expiry 100 and `now = 0`, the alarm
thread iteration returns the wait `expiry - now = 100`, yet the collection
does NOT stay unchanged: the head is removed (line 73 runs before the
due-time test), leaving the empty list. -/
theorem c3_not_due_still_removed :
    (0:Int) < alarmB.time ∧
    (alarm_thread_iter [alarmB] 0).2.1 = alarmB.time - 0 ∧
    (alarm_thread_iter [alarmB] 0).1 ≠ [alarmB] := by
  decide

/-- C3 amended: on a non-empty registry the alarm thread ALWAYS removes the
head alarm (whether or not it is due) and takes it for printing; the wait it
computes is 0 when the head expiry is at or before `now`, and
`expiry - now` when the expiry is in the future. -/
theorem c3_head_always_claimed (a : AlarmT) (rest : List AlarmT) (now : Int) :
    (alarm_thread_iter (a :: rest) now).1 = rest ∧
    (alarm_thread_iter (a :: rest) now).2.2 = some a ∧
    (a.time ≤ now → (alarm_thread_iter (a :: rest) now).2.1 = 0) ∧
    (now < a.time → (alarm_thread_iter (a :: rest) now).2.1 = a.time - now) := by
  refine ⟨rfl, rfl, fun h => ?_, fun h => ?_⟩
  · simp [alarm_thread_iter, h]
  · simp [alarm_thread_iter, not_le.mpr h]

/-- Witness for the amended C3 theorem at a concrete not-yet-due input. -/
theorem c3_head_always_claimed_witness :
    (alarm_thread_iter [alarmB] 3).2.1 = alarmB.time - 3 :=
  (c3_head_always_claimed alarmB [] 3).2.2.2 (by decide)

/-- C4 counterexample: two creates with id 3 from the empty Registry leave
TWO live alarms with id 3, the head carrying the second call data — not
one alarm with the first call data, and no failure occurs (the code has no
DuplicateId signal at all). -/
theorem c4_second_create_succeeds :
    ((runOps [Op.create 3 "A" 5 0 "x", Op.create 3 "B" 7 1 "y"]).map AlarmT.alarm_id
      = [3, 3]) ∧
    (runOps [Op.create 3 "A" 5 0 "x", Op.create 3 "B" 7 1 "y"]).head?
      = some (mkAlarm 3 "B" 7 1 "y") := by
  decide

/-- C4 amended: creating the same id twice from the empty Registry never
fails; the Registry afterwards holds both alarms, the second call first. -/
theorem c4_duplicate_creates_both_live (alarm_id : Int) (ty1 ty2 : String)
    (s1 n1 s2 n2 : Int) (m1 m2 : String) :
    Start_Alarm (Start_Alarm [] alarm_id ty1 s1 n1 m1) alarm_id ty2 s2 n2 m2 =
      [mkAlarm alarm_id ty2 s2 n2 m2, mkAlarm alarm_id ty1 s1 n1 m1] := by
  simp [Start_Alarm, findGESuffix, mkAlarm]

/-- C5 counterexample: in the registry [id 1 @ expiry 50, id 2 @ expiry 100],
changing alarm 2 to duration 0 at time 0 gives it expiry 0, yet it stays in
second position behind expiry 50: `Change_Alarm` never re-sorts, so the
claimed move to the position determined by the new expiry does not happen. -/
theorem c5_change_does_not_resort :
    ((Change_Alarm [alarmA, alarmB] 2 "C" 0 0 "z").1.map AlarmT.time = [50, 0]) ∧
    ¬ schedOrdered (Change_Alarm [alarmA, alarmB] 2 "C" 0 0 "z").1 := by
  decide

/-- C5 amended: `Change_Alarm` overwrites the fields of the first alarm
carrying the id in place — `seconds`, `time := now + seconds`, `message`
(kept to 63 characters), `type` (written through the alias, kept to 7
bytes) — reports success, and leaves the alarm at its existing list
position with every other alarm untouched; no re-sort occurs. -/
theorem c5_change_in_place (pre post : List AlarmT) (a : AlarmT) (ty : String)
    (seconds now : Int) (msg : String) (h : ∀ b ∈ pre, b.alarm_id ≠ a.alarm_id) :
    Change_Alarm (pre ++ a :: post) a.alarm_id ty seconds now msg =
      (pre ++ { a with type := ty.take 7
                       seconds := seconds
                       time := now + seconds
                       message := msg.take 63 } :: post, true) := by
  induction pre with
  | nil => simp [Change_Alarm]
  | cons b bs ih =>
      have hb : b.alarm_id ≠ a.alarm_id := h b (List.mem_cons_self b bs)
      have hrec := ih (fun c hc => h c (List.mem_cons_of_mem b hc))
      simp [Change_Alarm, hb, hrec]

/-- Witness for the amended C5 theorem at a concrete input. -/
theorem c5_change_in_place_witness :
    Change_Alarm ([alarmA] ++ alarmB :: []) alarmB.alarm_id "C" 0 0 "z" =
      ([alarmA] ++ { alarmB with type := "C".take 7
                                 seconds := 0
                                 time := (0:Int) + 0
                                 message := "z".take 63 } :: [], true) :=
  c5_change_in_place [alarmA] [] alarmB "C" 0 0 "z" (by decide)

/-- C6: when no live alarm carries the id, `Change_Alarm` and `Cancel_Alarm`
both report not-found (`false`, printed as "Could not find alarm" resp.
"Alarm does not exist") and return the registry exactly as it was. -/
theorem c6_notfound_no_change (l : List AlarmT) (alarm_id : Int) (ty : String)
    (seconds now : Int) (msg : String) (h : ∀ a ∈ l, a.alarm_id ≠ alarm_id) :
    Change_Alarm l alarm_id ty seconds now msg = (l, false) ∧
    Cancel_Alarm l alarm_id = (l, false) := by
  induction l with
  | nil => exact ⟨rfl, rfl⟩
  | cons a rest ih =>
      have ha : a.alarm_id ≠ alarm_id := h a (List.mem_cons_self a rest)
      have hrec := ih (fun b hb => h b (List.mem_cons_of_mem a hb))
      simp [Change_Alarm, Cancel_Alarm, ha, hrec.1, hrec.2]

/-- Witness for C6 at a concrete input. -/
theorem c6_notfound_no_change_witness :
    Change_Alarm [alarmA] 2 "B" 3 0 "m" = ([alarmA], false) ∧
    Cancel_Alarm [alarmA] 2 = ([alarmA], false) :=
  c6_notfound_no_change [alarmA] 2 "B" 3 0 "m" (by decide)

/-- C7: the per-iteration wait of the alarm thread is exactly 1 on the empty
registry, exactly 0 when the head alarm expiry is at or before `now`, and
exactly `expiry - now` when the head alarm expiry is in the future. -/
theorem c7_sleep_time (l : List AlarmT) (now : Int) :
    (l = [] → (alarm_thread_iter l now).2.1 = 1) ∧
    (∀ a rest, l = a :: rest → a.time ≤ now → (alarm_thread_iter l now).2.1 = 0) ∧
    (∀ a rest, l = a :: rest → now < a.time →
      (alarm_thread_iter l now).2.1 = a.time - now) := by
  refine ⟨fun h => ?_, fun a rest h hle => ?_, fun a rest h hlt => ?_⟩
  · subst h; rfl
  · subst h; simp [alarm_thread_iter, hle]
  · subst h; simp [alarm_thread_iter, not_le.mpr hlt]

/-- Witness for C7 on the empty registry. -/
theorem c7_sleep_time_witness : (alarm_thread_iter [] 5).2.1 = 1 :=
  (c7_sleep_time [] 5).1 rfl

/-- C8: the claim fails on the code.  For the parser-accepted 100-character
message, `strcpy(alarm->message, message)` in `Start_Alarm` writes 101 bytes
into the 64-byte `message` array — past its bounds — and the stored value is
the full untruncated message: nothing truncates or rejects it. -/
theorem c8_message_overflow :
    messageCapacity < strcpyBytesWritten longMsg ∧
    (Start_Alarm [] 1 "A" 5 0 longMsg).map AlarmT.message = [longMsg] := by
  constructor
  · decide
  · rfl

/-- C9: the claim fails on the code.  When allocation fails during a create,
`Start_Alarm` does not abandon the command: it falls through and stores the
id through the null pointer (undefined behaviour / crash), instead of
leaving the unallocated alarm unwritten and continuing. -/
theorem c9_alloc_failure_dereferences_null :
    Start_Alarm_withAlloc false [] 1 "A" 5 0 "x" = StartResult.nullDeref := rfl

/-- When every reachable id is below the new id, the `Start_Alarm` scan
finds no node with `alarm_id >= id` and the new alarm keeps a null link. -/
theorem findGESuffix_nil_of_lt (alarm_id : Int) (l : List AlarmT)
    (h : ∀ a ∈ l, a.alarm_id < alarm_id) : findGESuffix alarm_id l = [] := by
  induction l with
  | nil => rfl
  | cons a rest ih =>
      have ha : a.alarm_id < alarm_id := h a (List.mem_cons_self a rest)
      have hrec := ih (fun b hb => h b (List.mem_cons_of_mem a hb))
      simp [findGESuffix, not_le.mpr ha, hrec]

/-- C10: every `Start_Alarm` call makes the new alarm the list head, and
when the new id is strictly greater than every id in the list, the entire
previous list becomes unreachable from the head. -/
theorem c10_start_alarm_re_heads (l : List AlarmT) (alarm_id : Int) (ty : String)
    (seconds now : Int) (msg : String) :
    (Start_Alarm l alarm_id ty seconds now msg).head? =
      some (mkAlarm alarm_id ty seconds now msg) ∧
    ((∀ a ∈ l, a.alarm_id < alarm_id) →
      Start_Alarm l alarm_id ty seconds now msg = [mkAlarm alarm_id ty seconds now msg]) := by
  refine ⟨rfl, fun h => ?_⟩
  simp [Start_Alarm, findGESuffix_nil_of_lt alarm_id l h]

/-- Witness for C10: inserting id 2 over a list holding only id 1 loses the
old list entirely. -/
theorem c10_start_alarm_re_heads_witness :
    Start_Alarm [alarmA] 2 "B" 7 0 "y" = [mkAlarm 2 "B" 7 0 "y"] :=
  (c10_start_alarm_re_heads [alarmA] 2 "B" 7 0 "y").2 (by decide)

end AlarmMutex
